import Mathlib

/-!
Shallow embedding of `src/etl/db_utilities.py` (module `etl.db_utilities`).

The module's database-touching functions are embedded as pure Lean
functions parameterised by the outcomes of the external effects
(opening the SQLite connection, executing a statement on a row,
reading the schema file, the S3 transfer).  Logging via
`custom_logger` is modelled by returning the list of emitted log
entries, in emission order.
-/

set_option linter.unusedVariables false

/-- A log level of `custom_logger` (`INFO_LOG_LEVEL` / `ERROR_LOG_LEVEL`). -/
inductive LogLevel
  | info
  | error
deriving DecidableEq, Repr

/-- One `custom_logger(level, message)` call. -/
structure LogEntry where
  level : LogLevel
  msg : String
deriving DecidableEq, Repr

/-- A data row: the Python code passes a tuple of scalar values; only its
printed form (used in log messages) and its identity matter here, so a row
is modelled as the list of the printed values. -/
abbrev Row := List String

/-- Python repr of a row inside an f-string, abstracted. -/
def rowStr (row : Row) : String :=
  String.intercalate (", ") row

/-- The outcome of `db_cursor.execute(sql_query, row)` followed by
`db_connection.commit()` for one row: success, `sqlite3.IntegrityError`,
or any other `sqlite3.Error`. -/
inductive RowOutcome
  | success
  | integrityError (msg : String)
  | dbError (msg : String)
deriving DecidableEq, Repr

/-- Whether the row's execute/commit succeeded. -/
def RowOutcome.isSuccess : RowOutcome → Bool
  | .success => true
  | _ => false

/-- The log entry the Python per-row `except` clauses emit for a failing
row at 1-based `index`, or `none` when the row succeeded. -/
def rowFailLog (index : Nat) (row : Row) : RowOutcome → Option LogEntry
  | .success => none
  | .integrityError msg =>
      some ⟨LogLevel.error,
        ("Row " ++ toString index ++ " failed to insert due to an integrity error: "
          ++ msg ++ ". Row data: " ++ rowStr row)⟩
  | .dbError msg =>
      some ⟨LogLevel.error,
        ("Row " ++ toString index ++ " failed to insert due to a general database error: "
          ++ msg ++ ". Row data: " ++ rowStr row)⟩

/-- Result of one `insert_into_database` call: the returned pair of
tallies, the number of per-row insert attempts made (`db_cursor.execute`
calls), and the emitted log entries. -/
structure InsertResult where
  rows_inserted : Nat
  rows_failed : Nat
  attempts : Nat
  logs : List LogEntry
deriving DecidableEq, Repr

/-- The `for index, row in enumerate(data, start=1)` loop of
`insert_into_database`: each row is attempted once; success increments
`rows_inserted`, an `sqlite3.IntegrityError` or other `sqlite3.Error`
is logged and increments `rows_failed`, and the loop continues.
Returns `(rows_inserted, rows_failed, logs)`. -/
def insertLoop (f : Nat → RowOutcome) : Nat → List Row → Nat × Nat × List LogEntry
  | _, [] => (0, 0, [])
  | index, row :: rest =>
    let tail := insertLoop f (index + 1) rest
    match f index with
    | .success => (tail.1 + 1, tail.2.1, tail.2.2)
    | .integrityError msg =>
        (tail.1, tail.2.1 + 1,
          ⟨LogLevel.error,
            ("Row " ++ toString index ++ " failed to insert due to an integrity error: "
              ++ msg ++ ". Row data: " ++ rowStr row)⟩ :: tail.2.2)
    | .dbError msg =>
        (tail.1, tail.2.1 + 1,
          ⟨LogLevel.error,
            ("Row " ++ toString index ++ " failed to insert due to a general database error: "
              ++ msg ++ ". Row data: " ++ rowStr row)⟩ :: tail.2.2)

/-- The summary line `custom_logger(INFO_LOG_LEVEL, f"rows_inserted: ...,
rows_failed: ...")` emitted after the per-row loop. -/
def insertSummaryLog (inserted failed : Nat) : LogEntry :=
  ⟨LogLevel.info,
    ("rows_inserted: " ++ toString inserted ++ ", rows_failed: " ++ toString failed)⟩

/-- `insert_into_database(table_name, column_names, data)`.

`connect` is the outcome of `sqlite3.connect(DB_LOCAL_PATH)` (an
`Except.error` models `sqlite3.Error` raised while setting up the
connection, caught by the outer `except sqlite3.Error` clause before any
row is attempted, which sets `rows_failed = len(data)` and leaves
`rows_inserted` at 0).  `f index` is the outcome of executing the built
INSERT statement on the row at 1-based `index`.  On the normal path the
function runs the per-row loop and then logs the summary line. -/
def insert_into_database (table_name : String) (column_names : List String)
    (data : List Row) (connect : Except String Unit) (f : Nat → RowOutcome) :
    InsertResult :=
  match connect with
  | .error msg =>
      { rows_inserted := 0
        rows_failed := data.length
        attempts := 0
        logs := [⟨LogLevel.error, ("Unexpected database error occurred: " ++ msg)⟩] }
  | .ok _ =>
      let r := insertLoop f 1 data
      { rows_inserted := r.1
        rows_failed := r.2.1
        attempts := data.length
        logs := r.2.2 ++ [insertSummaryLog r.1 r.2.1] }

/-- Number of indices `index, index+1, ..., index+n-1` whose row outcome
under `f` is a failure (integrity or other database error). -/
def countFailures (f : Nat → RowOutcome) : Nat → Nat → Nat
  | _, 0 => 0
  | index, n + 1 =>
      (if (f index).isSuccess then 0 else 1) + countFailures f (index + 1) n

lemma insertLoop_sum (f : Nat → RowOutcome) (index : Nat) (data : List Row) :
    (insertLoop f index data).1 + (insertLoop f index data).2.1 = data.length := by
  induction data generalizing index with
  | nil => simp [insertLoop]
  | cons row rest ih =>
    have h2 := ih (index + 1)
    simp only [insertLoop, List.length_cons]
    cases h : f index <;> simp [h] <;> omega

lemma insertLoop_failed (f : Nat → RowOutcome) (index : Nat) (data : List Row) :
    (insertLoop f index data).2.1 = countFailures f index data.length := by
  induction data generalizing index with
  | nil => simp [insertLoop, countFailures]
  | cons row rest ih =>
    have h2 := ih (index + 1)
    simp only [insertLoop, List.length_cons, countFailures]
    cases h : f index <;> simp [h, RowOutcome.isSuccess] <;> omega

/-- C1: for every call, on the normal path the returned pair satisfies
`rows_inserted + rows_failed = len(data)`, and when the connection-level
setup fails the call returns `rows_inserted = 0` and
`rows_failed = len(data)`. -/
theorem insert_tally_invariant (table_name : String) (column_names : List String)
    (data : List Row) (f : Nat → RowOutcome) (e : String) :
    (insert_into_database table_name column_names data (Except.ok ()) f).rows_inserted
      + (insert_into_database table_name column_names data (Except.ok ()) f).rows_failed
      = data.length
    ∧ (insert_into_database table_name column_names data (Except.error e) f).rows_inserted = 0
    ∧ (insert_into_database table_name column_names data (Except.error e) f).rows_failed
      = data.length := by
  refine ⟨?_, rfl, rfl⟩
  simpa [insert_into_database] using insertLoop_sum f 1 data

lemma insertLoop_logs (f : Nat → RowOutcome) (index : Nat) (data : List Row) :
    (insertLoop f index data).2.2
      = (List.enumFrom index data).filterMap (fun p => rowFailLog p.1 p.2 (f p.1)) := by
  induction data generalizing index with
  | nil => simp [insertLoop]
  | cons row rest ih =>
    have h2 := ih (index + 1)
    simp only [insertLoop, List.enumFrom, List.filterMap_cons]
    cases h : f index <;> simp [h, rowFailLog, h2]

/-- C2: on the normal path, when exactly `k` of the per-row insert
attempts fail (integrity violations), the call returns `rows_failed = k`
and `rows_inserted = len(data) - k`; with `k = 0` this is
`(len(data), 0)` and with `k = len(data)` it is `(0, len(data))`. -/
theorem insert_partial_failure_tally (table_name : String) (column_names : List String)
    (data : List Row) (f : Nat → RowOutcome) (k : Nat)
    (hk : countFailures f 1 data.length = k) :
    (insert_into_database table_name column_names data (Except.ok ()) f).rows_failed = k
    ∧ (insert_into_database table_name column_names data (Except.ok ()) f).rows_inserted
      = data.length - k := by
  have hf := insertLoop_failed f 1 data
  have hs := insertLoop_sum f 1 data
  constructor
  · simp only [insert_into_database]
    omega
  · simp only [insert_into_database]
    omega

/-- Witness for C2 at the spec's end-to-end scenario: three rows of which
the third collides with a unique key, giving `(2, 1)`. -/
theorem insert_partial_failure_tally_witness :
    countFailures
        (fun i => if i = 3 then RowOutcome.integrityError ("UNIQUE constraint failed: t.id")
          else RowOutcome.success) 1
        ([["a", "1"], ["b", "2"], ["a", "3"]] : List Row).length = 1
    ∧ ((insert_into_database ("t") (["id", "val"]) ([["a", "1"], ["b", "2"], ["a", "3"]])
          (Except.ok ())
          (fun i => if i = 3 then RowOutcome.integrityError ("UNIQUE constraint failed: t.id")
            else RowOutcome.success)).rows_failed = 1
        ∧ (insert_into_database ("t") (["id", "val"]) ([["a", "1"], ["b", "2"], ["a", "3"]])
            (Except.ok ())
            (fun i => if i = 3 then RowOutcome.integrityError ("UNIQUE constraint failed: t.id")
              else RowOutcome.success)).rows_inserted
          = ([["a", "1"], ["b", "2"], ["a", "3"]] : List Row).length - 1) :=
  ⟨by decide, insert_partial_failure_tally _ _ _ _ 1 (by decide)⟩

/-- C3: when establishing the connection itself fails on a non-empty
batch, the whole batch is aborted: no row is attempted and the call
returns `rows_inserted = 0`, `rows_failed = len(data)`. -/
theorem insert_connection_failure_aborts (table_name : String) (column_names : List String)
    (data : List Row) (f : Nat → RowOutcome) (e : String) (h : 0 < data.length) :
    (insert_into_database table_name column_names data (Except.error e) f).rows_inserted = 0
    ∧ (insert_into_database table_name column_names data (Except.error e) f).rows_failed
      = data.length
    ∧ (insert_into_database table_name column_names data (Except.error e) f).attempts = 0 :=
  ⟨rfl, rfl, rfl⟩

/-- Witness for C3: a one-row batch with a failing connection. -/
theorem insert_connection_failure_aborts_witness :
    0 < ([["a"]] : List Row).length
    ∧ ((insert_into_database ("t") (["id"]) ([["a"]])
          (Except.error ("unable to open database file"))
          (fun _ => RowOutcome.success)).rows_inserted = 0
        ∧ (insert_into_database ("t") (["id"]) ([["a"]])
            (Except.error ("unable to open database file"))
            (fun _ => RowOutcome.success)).rows_failed = ([["a"]] : List Row).length
        ∧ (insert_into_database ("t") (["id"]) ([["a"]])
            (Except.error ("unable to open database file"))
            (fun _ => RowOutcome.success)).attempts = 0) :=
  ⟨by decide, insert_connection_failure_aborts _ _ _ _ _ (by decide)⟩

/-- C4: on the normal path every row is attempted exactly once, in input
order; each failing row contributes its failure log entry at its 1-based
index, in input order, followed only by the summary line; no row-level
error escapes — the call returns the tally pair, which accounts for
every row. -/
theorem insert_row_errors_isolated (table_name : String) (column_names : List String)
    (data : List Row) (f : Nat → RowOutcome) :
    (insert_into_database table_name column_names data (Except.ok ()) f).attempts = data.length
    ∧ (insert_into_database table_name column_names data (Except.ok ()) f).logs
      = (List.enumFrom 1 data).filterMap (fun p => rowFailLog p.1 p.2 (f p.1))
        ++ [insertSummaryLog
            (insert_into_database table_name column_names data (Except.ok ()) f).rows_inserted
            (insert_into_database table_name column_names data (Except.ok ()) f).rows_failed]
    ∧ (insert_into_database table_name column_names data (Except.ok ()) f).rows_inserted
      + (insert_into_database table_name column_names data (Except.ok ()) f).rows_failed
      = data.length := by
  refine ⟨rfl, ?_, ?_⟩
  · simp only [insert_into_database]
    rw [insertLoop_logs]
  · simpa [insert_into_database] using insertLoop_sum f 1 data

/-- C9: for the empty batch no insert is attempted and the call returns
`(0, 0)` on the normal path; the connection-failure path returns
`(0, len([]) ) = (0, 0)` as well, so the two outcomes coincide. -/
theorem insert_empty_batch (table_name : String) (column_names : List String)
    (f : Nat → RowOutcome) (e : String) :
    (insert_into_database table_name column_names [] (Except.ok ()) f).rows_inserted = 0
    ∧ (insert_into_database table_name column_names [] (Except.ok ()) f).rows_failed = 0
    ∧ (insert_into_database table_name column_names [] (Except.ok ()) f).attempts = 0
    ∧ (insert_into_database table_name column_names [] (Except.error e) f).rows_inserted = 0
    ∧ (insert_into_database table_name column_names [] (Except.error e) f).rows_failed = 0
    ∧ (insert_into_database table_name column_names [] (Except.error e) f).attempts = 0 :=
  ⟨rfl, rfl, rfl, rfl, rfl, rfl⟩

/-- `execute_select_query(query, params)`.

`exec` is the combined outcome of `db_cursor.execute(...)` and
`db_cursor.fetchall()`: `Except.ok rows` yields the fetched rows,
`Except.error msg` models an `sqlite3.Error` caught by the `except`
clause.  Returns the Python return value (`None` becomes `none`, a list
of rows becomes `some rows`) together with the emitted log entries. -/
def execute_select_query (query : String) (params : Option (List String))
    (exec : Except String (List Row)) : Option (List Row) × List LogEntry :=
  match exec with
  | .ok rows => (some rows, [])
  | .error msg =>
      (none,
        [⟨LogLevel.error, ("Query " ++ query ++ " failed, database error: " ++ msg ++ ".")⟩])

/-- Python truthiness of the returned value, as a caller writing
`if result:` would observe it: `None` and the empty list are both falsy. -/
def pyTruthy : Option (List Row) → Bool
  | none => false
  | some rows => !rows.isEmpty

/-- C5 counterexample: the claim says a failing query and a zero-row
success return the same indistinguishable value; in the code a failing
query returns `None` while a zero-row success returns the empty list —
two different values. -/
theorem select_collapse_counterexample :
    (execute_select_query ("SELECT * FROM t") none (Except.error ("no such table: t"))).1
      ≠ (execute_select_query ("SELECT * FROM t") none (Except.ok [])).1 := by
  simp [execute_select_query]

/-- C5 amended: a failing query returns `None` and a zero-row success
returns the empty list — distinct values — but both are falsy, so a
caller testing the result's truthiness cannot tell the two apart. -/
theorem select_collapse_truthiness (query : String) (params : Option (List String))
    (e : String) :
    (execute_select_query query params (Except.error e)).1 = none
    ∧ (execute_select_query query params (Except.ok [])).1 = some []
    ∧ pyTruthy (execute_select_query query params (Except.error e)).1
      = pyTruthy (execute_select_query query params (Except.ok [])).1 :=
  ⟨rfl, rfl, rfl⟩

/-- C6: on success the full fetched result set is returned in order with
no error log; on any execution error the function logs the query text and
the error and returns `None` instead of raising. -/
theorem select_success_and_error_contract (query : String) (params : Option (List String))
    (rows : List Row) (e : String) :
    execute_select_query query params (Except.ok rows) = (some rows, [])
    ∧ execute_select_query query params (Except.error e)
      = (none,
          [⟨LogLevel.error, ("Query " ++ query ++ " failed, database error: " ++ e ++ ".")⟩]) :=
  ⟨rfl, rfl⟩

/-- Outcome of `ensure_data_directories_exist()`: the two `os.makedirs`
calls either succeed (directories created or already present) or raise
an `OSError` with the given message (e.g. permission denied, or a path
component existing as a regular file, which `exist_ok=True` does not
cover). -/
inductive DirOutcome
  | ok
  | osError (msg : String)
deriving DecidableEq, Repr

/-- `ensure_data_directories_exist()` as seen by its caller: success, or
the raised `OSError`. -/
def ensure_data_directories_exist : DirOutcome → Except String Unit
  | .ok => Except.ok ()
  | .osError msg => Except.error msg

/-- The outcome of the steps inside the `try` of `create_database`:
either every step (reading the schema file, connecting, running the
script, committing) succeeded, or some step raised an exception with the
given message (missing schema file, malformed SQL, connection error
alike). -/
inductive CreateDbOutcome
  | ok
  | failure (msg : String)
deriving DecidableEq, Repr

/-- The `try` block of `create_database`: on success it ends with the
info log; any raised exception is propagated to the handler. -/
def create_database_body (dbPath : String) : CreateDbOutcome → Except String (List LogEntry)
  | .ok => Except.ok [⟨LogLevel.info, ("Database created at " ++ dbPath)⟩]
  | .failure msg => Except.error msg

/-- `create_database()`: first calls
`ensure_data_directories_exist()` *outside* any handler, so an `OSError`
raised there propagates to the caller (modelled as `Except.error`);
then runs the `try` block, whose `except Exception` clause logs the
error; on that path the function returns `None` either way, so its
observable output is the log list (`Except.ok`). -/
def create_database (dbPath : String) (dirs : DirOutcome) (outcome : CreateDbOutcome) :
    Except String (List LogEntry) :=
  match ensure_data_directories_exist dirs with
  | .error msg => Except.error msg
  | .ok _ =>
      match create_database_body dbPath outcome with
      | .ok logs => Except.ok logs
      | .error msg =>
          Except.ok [⟨LogLevel.error, ("Error creating the database: " ++ msg)⟩]

/-- C8 counterexample: the claim says every failure of `create_database`
is absorbed and the function never raises; but
`ensure_data_directories_exist()` runs before the `try`, so an `OSError`
from `os.makedirs` (here: permission denied) propagates to the caller
uncaught and unlogged. -/
theorem create_database_raises_counterexample :
    create_database ("etl-data/cny-real-estate.db")
        (DirOutcome.osError ("Permission denied")) CreateDbOutcome.ok
      = Except.error ("Permission denied") := rfl

/-- C8 amended: every failure raised inside the `try` of
`create_database` (missing schema file, malformed SQL, connection error
— all surfacing as one exception message) is absorbed: when the
directory-provisioning step that precedes the `try` succeeds, the call
never raises, produces exactly one error log entry on failure and the
info line on success, and returns nothing else to the caller; only an
`OSError` from the directory-provisioning step propagates. -/
theorem create_database_absorbs_try_failures (dbPath : String) (msg : String) :
    create_database dbPath DirOutcome.ok (CreateDbOutcome.failure msg)
      = Except.ok [⟨LogLevel.error, ("Error creating the database: " ++ msg)⟩]
    ∧ create_database dbPath DirOutcome.ok CreateDbOutcome.ok
      = Except.ok [⟨LogLevel.info, ("Database created at " ++ dbPath)⟩] :=
  ⟨rfl, rfl⟩

/-- Python truthiness of an environment lookup
`os.environ.get("NAME")`: `None` (unset) and the empty string are both
falsy. -/
def envTruthy : Option String → Bool
  | none => false
  | some s => !s.isEmpty

/-- The boto3 session/client built from the three credential values. -/
structure S3ClientConfig where
  accessKey : String
  secretKey : String
  region : String
deriving DecidableEq, Repr

/-- `_get_s3_client()`: reads the three credential environment variables;
when all are truthy it builds the client, otherwise it logs each falsy
variable individually plus the skip line and yields `None`.  Arguments
are the environment lookups of `AWS_ACCESS_KEY_ID`,
`AWS_SECRET_ACCESS_KEY` and `AWS_REGION`. -/
def get_s3_client (keyId secret region : Option String) :
    Option S3ClientConfig × List LogEntry :=
  if envTruthy keyId && envTruthy secret && envTruthy region then
    (some ⟨keyId.getD "", secret.getD "", region.getD ""⟩, [])
  else
    (none,
      (if envTruthy keyId then []
        else [⟨LogLevel.error, ("Missing AWS_ACCESS_KEY_ID environment variable.")⟩])
      ++ (if envTruthy secret then []
        else [⟨LogLevel.error, ("Missing AWS_SECRET_ACCESS_KEY environment variable.")⟩])
      ++ (if envTruthy region then []
        else [⟨LogLevel.error, ("Missing AWS_REGION environment variable.")⟩])
      ++ [⟨LogLevel.error, ("Unable to create S3 client. Skipping operation.")⟩])

/-- Outcome of an attempted S3 transfer call. -/
inductive TransferOutcome
  | success
  | failure (msg : String)
deriving DecidableEq, Repr

/-- `download_database_from_s3()`: builds the client; when it is `None`
the operation is skipped with no transfer attempted; otherwise the
download is attempted once and its success or failure is logged.
Returns whether a network transfer call was made, plus the logs. -/
def download_database_from_s3 (keyId secret region : Option String)
    (transfer : TransferOutcome) : Bool × List LogEntry :=
  match get_s3_client keyId secret region with
  | (none, logs) => (false, logs)
  | (some _, logs) =>
      match transfer with
      | .success =>
          (true, logs ++
            [⟨LogLevel.info,
              ("Successfully downloaded the database from S3 to the local path")⟩])
      | .failure msg =>
          (true, logs ++
            [⟨LogLevel.error, ("Failed to download database from S3: " ++ msg)⟩])

/-- `upload_database_to_s3()`: same gating as the download; on a
successful transfer the `else` clause logs success. -/
def upload_database_to_s3 (keyId secret region : Option String)
    (transfer : TransferOutcome) : Bool × List LogEntry :=
  match get_s3_client keyId secret region with
  | (none, logs) => (false, logs)
  | (some _, logs) =>
      match transfer with
      | .success =>
          (true, logs ++
            [⟨LogLevel.info, ("Successfully uploaded the local database to S3")⟩])
      | .failure msg =>
          (true, logs ++
            [⟨LogLevel.error, ("Failed to upload database to S3: " ++ msg)⟩])

lemma get_s3_client_none_of_falsy (keyId secret region : Option String)
    (h : envTruthy keyId = false ∨ envTruthy secret = false ∨ envTruthy region = false) :
    (get_s3_client keyId secret region).1 = none := by
  rcases h with h | h | h <;> simp [get_s3_client, h]

/-- C7: when any one of the three credential environment variables is
unset, the client is `None`, that variable's absence is logged by its
own log line, the skip line is logged, and neither the download nor the
upload makes a network call. -/
theorem s3_sync_gated_on_credentials (keyId secret region : Option String)
    (tDown tUp : TransferOutcome)
    (h : keyId = none ∨ secret = none ∨ region = none) :
    (get_s3_client keyId secret region).1 = none
    ∧ (envTruthy keyId = false ↔
        (⟨LogLevel.error, ("Missing AWS_ACCESS_KEY_ID environment variable.")⟩ : LogEntry)
          ∈ (get_s3_client keyId secret region).2)
    ∧ (envTruthy secret = false ↔
        (⟨LogLevel.error, ("Missing AWS_SECRET_ACCESS_KEY environment variable.")⟩ : LogEntry)
          ∈ (get_s3_client keyId secret region).2)
    ∧ (envTruthy region = false ↔
        (⟨LogLevel.error, ("Missing AWS_REGION environment variable.")⟩ : LogEntry)
          ∈ (get_s3_client keyId secret region).2)
    ∧ (⟨LogLevel.error, ("Unable to create S3 client. Skipping operation.")⟩ : LogEntry)
        ∈ (get_s3_client keyId secret region).2
    ∧ (download_database_from_s3 keyId secret region tDown).1 = false
    ∧ (upload_database_to_s3 keyId secret region tUp).1 = false := by
  have hfal : envTruthy keyId = false ∨ envTruthy secret = false
      ∨ envTruthy region = false := by
    rcases h with h | h | h <;> simp [h, envTruthy]
  have hnone := get_s3_client_none_of_falsy keyId secret region hfal
  have hcond : (envTruthy keyId && envTruthy secret && envTruthy region) = false := by
    rcases hfal with h1 | h1 | h1 <;> simp [h1]
  refine ⟨hnone, ?_, ?_, ?_, ?_, ?_, ?_⟩
  · cases hk : envTruthy keyId <;> cases hs : envTruthy secret <;>
      cases hr : envTruthy region <;> simp_all [get_s3_client]
  · cases hk : envTruthy keyId <;> cases hs : envTruthy secret <;>
      cases hr : envTruthy region <;> simp_all [get_s3_client]
  · cases hk : envTruthy keyId <;> cases hs : envTruthy secret <;>
      cases hr : envTruthy region <;> simp_all [get_s3_client]
  · simp [get_s3_client, hcond]
  · cases hg : get_s3_client keyId secret region with
    | mk client logs =>
        rw [hg] at hnone
        simp at hnone
        simp [download_database_from_s3, hg, hnone]
  · cases hg : get_s3_client keyId secret region with
    | mk client logs =>
        rw [hg] at hnone
        simp at hnone
        simp [upload_database_to_s3, hg, hnone]

/-- Witness for C7: the region variable unset with the other two set. -/
theorem s3_sync_gated_on_credentials_witness :
    ((some "AKIA") = (none : Option String) ∨ (some "secret") = (none : Option String)
      ∨ (none : Option String) = (none : Option String))
    ∧ ((get_s3_client (some "AKIA") (some "secret") none).1 = none
      ∧ (envTruthy (some "AKIA") = false ↔
          (⟨LogLevel.error, ("Missing AWS_ACCESS_KEY_ID environment variable.")⟩ : LogEntry)
            ∈ (get_s3_client (some "AKIA") (some "secret") none).2)
      ∧ (envTruthy (some "secret") = false ↔
          (⟨LogLevel.error, ("Missing AWS_SECRET_ACCESS_KEY environment variable.")⟩ : LogEntry)
            ∈ (get_s3_client (some "AKIA") (some "secret") none).2)
      ∧ (envTruthy none = false ↔
          (⟨LogLevel.error, ("Missing AWS_REGION environment variable.")⟩ : LogEntry)
            ∈ (get_s3_client (some "AKIA") (some "secret") none).2)
      ∧ (⟨LogLevel.error, ("Unable to create S3 client. Skipping operation.")⟩ : LogEntry)
          ∈ (get_s3_client (some "AKIA") (some "secret") none).2
      ∧ (download_database_from_s3 (some "AKIA") (some "secret") none
          TransferOutcome.success).1 = false
      ∧ (upload_database_to_s3 (some "AKIA") (some "secret") none
          TransferOutcome.success).1 = false) :=
  ⟨Or.inr (Or.inr rfl),
    s3_sync_gated_on_credentials (some "AKIA") (some "secret") none
      TransferOutcome.success TransferOutcome.success (Or.inr (Or.inr rfl))⟩

/-- C10: a credential variable set to the empty string behaves exactly
like an unset one — `get_s3_client` produces identical output (no
client, same missing-variable logs), the sync operations behave
identically, and a client is produced exactly when all three values are
present and non-empty. -/
theorem s3_empty_credential_like_absent (a b : Option String)
    (keyId secret region : Option String) (t : TransferOutcome) :
    get_s3_client (some "") a b = get_s3_client none a b
    ∧ get_s3_client a (some "") b = get_s3_client a none b
    ∧ get_s3_client a b (some "") = get_s3_client a b none
    ∧ download_database_from_s3 (some "") a b t = download_database_from_s3 none a b t
    ∧ upload_database_to_s3 (some "") a b t = upload_database_to_s3 none a b t
    ∧ ((get_s3_client keyId secret region).1).isSome
      = (envTruthy keyId && envTruthy secret && envTruthy region) := by
  have h1 : envTruthy (some "") = envTruthy none := by decide
  refine ⟨?_, ?_, ?_, ?_, ?_, ?_⟩
  · simp [get_s3_client, h1]
  · simp [get_s3_client, h1]
  · simp [get_s3_client, h1]
  · simp [download_database_from_s3, get_s3_client, h1]
  · simp [upload_database_to_s3, get_s3_client, h1]
  · by_cases hc : (envTruthy keyId && envTruthy secret && envTruthy region) = true
    · simp [get_s3_client, hc]
    · simp only [Bool.not_eq_true] at hc
      simp [get_s3_client, hc]
